import Mathlib

/-!
Verification of the LETSknow chat request handler (`api/chat.js`).

The JavaScript handler is shallowly embedded: JavaScript values that can
appear in request bodies become the inductive type `JVal`, the cookie
parser, numeric coercion, cache lookup, prompt construction and the
per-request control flow become executable Lean functions, and the two
effectful boundaries (the random variant draw and the upstream completion
call) become explicit parameters of the handler.  Thrown JavaScript
exceptions are modelled with `Except`/`Option`.
-/

namespace Chat

/-- JavaScript runtime values, as far as the handler can observe them.
`vobj tag` stands for a non-primitive object or function value that the
handler never inspects beyond truthiness (for example a member inherited
from `Object.prototype`, tagged with its property name). -/
inductive JVal where
  | vstr (s : String)
  | vnum (q : ℚ)
  | vbool (b : Bool)
  | vnull
  | vundefined
  | vobj (tag : String)
  deriving DecidableEq, Repr

/-- JavaScript truthiness of a `JVal`. -/
def jsTruthy : JVal → Bool
  | .vstr s => s ≠ ""
  | .vnum q => q ≠ 0
  | .vbool b => b
  | .vnull => false
  | .vundefined => false
  | .vobj _ => true

/-- Whitespace recognized by JavaScript `String.prototype.trim` and by the
`Number` string coercion: the ECMAScript WhiteSpace set (TAB, VT, FF,
space, ZWNBSP U+FEFF, and the Unicode Space_Separator category U+0020,
U+00A0, U+1680, U+2000–U+200A, U+202F, U+205F, U+3000) together with the
LineTerminator set (LF, CR, LS U+2028, PS U+2029). -/
def jsWhitespace (c : Char) : Bool :=
  c.toNat = 0x09 ∨ c.toNat = 0x0a ∨ c.toNat = 0x0b ∨ c.toNat = 0x0c ∨
  c.toNat = 0x0d ∨ c.toNat = 0x20 ∨ c.toNat = 0xa0 ∨ c.toNat = 0x1680 ∨
  (0x2000 ≤ c.toNat ∧ c.toNat ≤ 0x200a) ∨ c.toNat = 0x2028 ∨ c.toNat = 0x2029 ∨
  c.toNat = 0x202f ∨ c.toNat = 0x205f ∨ c.toNat = 0x3000 ∨ c.toNat = 0xfeff

/-- Model of JavaScript `String.prototype.trim` on an exploded string. -/
def jsTrim (cs : List Char) : List Char :=
  ((cs.dropWhile jsWhitespace).reverse.dropWhile jsWhitespace).reverse

/-- Model of JavaScript `String.prototype.split` with a one-character
separator: `"".split(sep)` is `[""]`, separators at the ends produce empty
pieces. -/
def splitChar (sep : Char) : List Char → List (List Char)
  | [] => [[]]
  | c :: rest =>
    if c = sep then [] :: splitChar sep rest
    else
      match splitChar sep rest with
      | [] => [[c]]
      | p :: ps => (c :: p) :: ps

/-- ASCII lower-casing of one character, the fragment of
`String.prototype.toLowerCase` exercised by the handler (the cache keys are
ASCII). -/
def jsLowerChar (c : Char) : Char :=
  if 'A' ≤ c ∧ c ≤ 'Z' then Char.ofNat (c.toNat + 32) else c

/-- Model of `s.toLowerCase().trim()` as used on the latest utterance. -/
def jsLowerTrim (s : String) : String :=
  String.mk (jsTrim (s.toList.map jsLowerChar))

/-- UTF-8 encoding of one character as a byte list. -/
def utf8EncodeChar (c : Char) : List ℕ :=
  let n := c.toNat
  if n < 0x80 then [n]
  else if n < 0x800 then [0xc0 + n / 64, 0x80 + n % 64]
  else if n < 0x10000 then
    [0xe0 + n / 4096, 0x80 + (n / 64) % 64, 0x80 + n % 64]
  else
    [0xf0 + n / 0x40000, 0x80 + (n / 4096) % 64, 0x80 + (n / 64) % 64, 0x80 + n % 64]

/-- UTF-8 encoding of a character list. -/
def utf8Encode (cs : List Char) : List ℕ :=
  cs.flatMap utf8EncodeChar

/-- Is a byte a UTF-8 continuation byte? -/
def utf8Cont (b : ℕ) : Bool := 0x80 ≤ b ∧ b < 0xc0

/-- Lead byte of a one-byte (ASCII) sequence. -/
def utf8Lead1 (b : ℕ) : Bool := b < 0x80

/-- Scalar value of a two-byte sequence. -/
def utf8Char2 (b1 b2 : ℕ) : ℕ := (b1 - 0xc0) * 64 + (b2 - 0x80)

/-- Well-formed two-byte sequence (the `0xc2` lower bound excludes overlong
encodings). -/
def utf8Ok2 (b1 b2 : ℕ) : Bool := 0xc2 ≤ b1 ∧ b1 < 0xe0 ∧ utf8Cont b2

/-- Scalar value of a three-byte sequence. -/
def utf8Char3 (b1 b2 b3 : ℕ) : ℕ :=
  (b1 - 0xe0) * 4096 + (b2 - 0x80) * 64 + (b3 - 0x80)

/-- Well-formed three-byte sequence: overlong and surrogate values are
rejected. -/
def utf8Ok3 (b1 b2 b3 : ℕ) : Bool :=
  0xe0 ≤ b1 ∧ b1 < 0xf0 ∧ utf8Cont b2 ∧ utf8Cont b3 ∧
    0x800 ≤ utf8Char3 b1 b2 b3 ∧
    ¬(0xd800 ≤ utf8Char3 b1 b2 b3 ∧ utf8Char3 b1 b2 b3 < 0xe000)

/-- Scalar value of a four-byte sequence. -/
def utf8Char4 (b1 b2 b3 b4 : ℕ) : ℕ :=
  (b1 - 0xf0) * 0x40000 + (b2 - 0x80) * 4096 + (b3 - 0x80) * 64 + (b4 - 0x80)

/-- Well-formed four-byte sequence: overlong and out-of-range values are
rejected. -/
def utf8Ok4 (b1 b2 b3 b4 : ℕ) : Bool :=
  0xf0 ≤ b1 ∧ b1 < 0xf5 ∧ utf8Cont b2 ∧ utf8Cont b3 ∧ utf8Cont b4 ∧
    0x10000 ≤ utf8Char4 b1 b2 b3 b4 ∧ utf8Char4 b1 b2 b3 b4 < 0x110000

/-- Strict UTF-8 decoding of a byte list; `none` on any malformed, overlong
or surrogate-encoding sequence, mirroring the validation performed by
JavaScript `decodeURIComponent` on decoded escape octets. -/
def utf8Decode : List ℕ → Option (List Char)
  | [] => some []
  | [b1] => if utf8Lead1 b1 then some [Char.ofNat b1] else none
  | [b1, b2] =>
    if utf8Lead1 b1 then (utf8Decode [b2]).map (Char.ofNat b1 :: ·)
    else if utf8Ok2 b1 b2 then some [Char.ofNat (utf8Char2 b1 b2)]
    else none
  | [b1, b2, b3] =>
    if utf8Lead1 b1 then (utf8Decode [b2, b3]).map (Char.ofNat b1 :: ·)
    else if utf8Ok2 b1 b2 then (utf8Decode [b3]).map (Char.ofNat (utf8Char2 b1 b2) :: ·)
    else if utf8Ok3 b1 b2 b3 then some [Char.ofNat (utf8Char3 b1 b2 b3)]
    else none
  | b1 :: b2 :: b3 :: b4 :: rest =>
    if utf8Lead1 b1 then (utf8Decode (b2 :: b3 :: b4 :: rest)).map (Char.ofNat b1 :: ·)
    else if utf8Ok2 b1 b2 then
      (utf8Decode (b3 :: b4 :: rest)).map (Char.ofNat (utf8Char2 b1 b2) :: ·)
    else if utf8Ok3 b1 b2 b3 then
      (utf8Decode (b4 :: rest)).map (Char.ofNat (utf8Char3 b1 b2 b3) :: ·)
    else if utf8Ok4 b1 b2 b3 b4 then
      (utf8Decode rest).map (Char.ofNat (utf8Char4 b1 b2 b3 b4) :: ·)
    else none

/-- Numeric value of a hexadecimal digit character. -/
def hexVal? (c : Char) : Option ℕ :=
  if '0' ≤ c ∧ c ≤ '9' then some (c.toNat - '0'.toNat)
  else if 'a' ≤ c ∧ c ≤ 'f' then some (c.toNat - 'a'.toNat + 10)
  else if 'A' ≤ c ∧ c ≤ 'F' then some (c.toNat - 'A'.toNat + 10)
  else none

/-- Percent-decoding pass of `decodeURIComponent`: each `%XY` escape
contributes the octet `0xXY`, every other character contributes its own
UTF-8 octets; `none` when a `%` is not followed by two hex digits
(JavaScript throws `URIError` there). -/
def percentDecodeBytes : List Char → Option (List ℕ)
  | [] => some []
  | c :: rest =>
    if c = '%' then
      match rest with
      | c1 :: c2 :: rest2 =>
        match hexVal? c1, hexVal? c2 with
        | some h1, some h2 => (percentDecodeBytes rest2).map ((h1 * 16 + h2) :: ·)
        | _, _ => none
      | _ => none
    else (percentDecodeBytes rest).map (utf8EncodeChar c ++ ·)

/-- Model of JavaScript `decodeURIComponent`: `none` models a thrown
`URIError` (incomplete escape or escape octets that are not valid UTF-8). -/
def decodeURIComponent (s : String) : Option String :=
  (percentDecodeBytes s.toList).bind fun bs => (utf8Decode bs).map String.mk

/-- Assignment `obj[k] = v` on a plain JavaScript object modelled as an
insertion-ordered association list.  Writing the key `__proto__` triggers
the inherited `Object.prototype.__proto__` setter and creates no own
property, so it leaves the map unchanged. -/
def jsObjSet (obj : List (String × String)) (k v : String) : List (String × String) :=
  if k = "__proto__" then obj
  else if (obj.find? (fun p => p.1 == k)).isSome then
    obj.map fun p => if p.1 == k then (k, v) else p
  else obj ++ [(k, v)]

/-- Own-property read `obj[k]` on the cookie map. -/
def jsLookup (obj : List (String × String)) (k : String) : Option String :=
  (obj.find? (fun p => p.1 == k)).map (·.2)

/-- Model of `parts.join(sep)` for a one-character separator. -/
def joinSep (sep : Char) : List (List Char) → List Char
  | [] => []
  | [p] => p
  | p :: q :: rest => p ++ sep :: joinSep sep (q :: rest)

/-- The `reduce` callback of `parseCookies`: skip an empty (falsy) trimmed
pair, split the pair on `=`, take the first piece as the name, rejoin the
tail with `=` and URL-decode it as the value, then store it with
JavaScript object-assignment semantics.  `Except.error` models the
`URIError` thrown by `decodeURIComponent`. -/
def cookieStep (acc : List (String × String)) (pair : List Char) :
    Except Unit (List (String × String)) :=
  if pair = [] then Except.ok acc
  else
    match decodeURIComponent (String.mk (joinSep '=' (splitChar '=' pair).tail)) with
    | some d => Except.ok (jsObjSet acc (String.mk ((splitChar '=' pair).headD [])) d)
    | none => Except.error ()

/-- The helper `parseCookies` of `api/chat.js`: split the header on `;`,
trim each piece, and fold the pairs with `cookieStep`. -/
def parseCookies (cookieHeader : String) : Except Unit (List (String × String)) :=
  ((splitChar ';' cookieHeader.toList).map jsTrim).foldlM cookieStep []

/-- Result of JavaScript `Number(string)` coercion: not-a-number, a signed
infinity, or the finite value `m * 10 ^ e`.  String numeric literals always
denote such decimal rationals; the pair is kept canonical (`m` not a
multiple of ten unless zero, and `(0, 0)` for zero), so that structural
equality of `JsNum` coincides with equality of the exact decimal values.
The IEEE-754 binary64 rounding that `Number` performs is applied at the
two points where the handler observes the number — truthiness
(`jsNumOptTruthy`) and the `VERSIONS` property-key lookup (`versionKey`) —
which is observably equivalent to rounding at parse time: both observation
functions are determined by the rounded double alone.  (A value that
overflows to an infinity is kept as a large finite pair; it is truthy and
names no `VERSIONS` key, exactly like the JavaScript infinity.) -/
inductive JsNum where
  | nan
  | inf (neg : Bool)
  | fin (m e : ℤ)
  deriving DecidableEq, Repr

/-- Remove factors of ten from `m`, shifting them into the exponent; the
first argument is fuel (the magnitude of `m` bounds the number of steps). -/
def stripTens : ℕ → ℤ → ℤ → ℤ × ℤ
  | 0, m, e => (m, e)
  | fuel + 1, m, e =>
    if m % 10 = 0 ∧ m ≠ 0 then stripTens fuel (m / 10) (e + 1) else (m, e)

/-- Canonical mantissa/exponent pair denoting `m * 10 ^ e`. -/
def canonFin (m e : ℤ) : JsNum :=
  if m = 0 then .fin 0 0
  else
    let p := stripTens m.natAbs m e
    .fin p.1 p.2

/-- Decimal digit test. -/
def isDigit (c : Char) : Bool := '0' ≤ c ∧ c ≤ '9'

/-- Value of a decimal digit string. -/
def digitsToNat (ds : List Char) : ℕ :=
  ds.foldl (fun a c => a * 10 + (c.toNat - '0'.toNat)) 0

/-- Value of a digit string in a base, given a per-digit reader. -/
def radixToNat (digit : Char → Option ℕ) (base : ℕ) (ds : List Char) : ℕ :=
  ds.foldl (fun a c => a * base + (digit c).getD 0) 0

/-- Exponent part of a string numeric literal (after the `e`/`E`): an
optional sign followed by at least one digit, consuming the whole rest. -/
def parseExponent (cs : List Char) : Option ℤ :=
  match cs with
  | '+' :: ds => if ds ≠ [] ∧ ds.all isDigit then some (digitsToNat ds) else none
  | '-' :: ds => if ds ≠ [] ∧ ds.all isDigit then some (-(digitsToNat ds : ℤ)) else none
  | ds => if ds ≠ [] ∧ ds.all isDigit then some (digitsToNat ds) else none

/-- Value of the literal `ip . fp × 10 ^ e` as an unsigned canonical
mantissa/exponent pair. -/
def decValue (ip fp : List Char) (e : ℤ) : ℕ × ℤ :=
  (digitsToNat (ip ++ fp), e - fp.length)

/-- Unsigned decimal literal of the `Number` string grammar:
`digits [. digits] [exponent]` or `. digits [exponent]`, with nothing left
over; `none` means not-a-number. -/
def parseDecimal (cs : List Char) : Option (ℕ × ℤ) :=
  let (ip, r1) := cs.span isDigit
  let (fp, r2) := match r1 with
    | '.' :: t => t.span isDigit
    | _ => ([], r1)
  if ip = [] ∧ fp = [] then none
  else
    match r2 with
    | [] => some (decValue ip fp 0)
    | c :: t =>
      if c = 'e' ∨ c = 'E' then (parseExponent t).map (decValue ip fp)
      else none

/-- Signed decimal or `Infinity` branch of `Number(string)`. -/
def signedMain (cs : List Char) : JsNum :=
  let (neg, rest) : Bool × List Char :=
    match cs with
    | '+' :: t => (false, t)
    | '-' :: t => (true, t)
    | t => (false, t)
  if rest = "Infinity".toList then .inf neg
  else
    match parseDecimal rest with
    | some p => canonFin (if neg then -(p.1 : ℤ) else (p.1 : ℤ)) p.2
    | none => .nan

/-- Binary digit reader. -/
def binDigit? (c : Char) : Option ℕ :=
  if c = '0' then some 0 else if c = '1' then some 1 else none

/-- Octal digit reader. -/
def octDigit? (c : Char) : Option ℕ :=
  if '0' ≤ c ∧ c ≤ '7' then some (c.toNat - '0'.toNat) else none

/-- Model of JavaScript `Number(string)`: whitespace is trimmed, the empty
remainder is `0`, `0x`/`0o`/`0b` radix literals (unsigned) and signed
decimal/`Infinity` literals are recognized, anything else is `NaN`. -/
def jsNumber (s : String) : JsNum :=
  let cs := jsTrim s.toList
  match cs with
  | [] => .fin 0 0
  | '0' :: x :: rest =>
    if x = 'x' ∨ x = 'X' then
      if rest ≠ [] ∧ rest.all (fun c => (hexVal? c).isSome) then
        canonFin (radixToNat hexVal? 16 rest : ℕ) 0
      else .nan
    else if x = 'b' ∨ x = 'B' then
      if rest ≠ [] ∧ rest.all (fun c => (binDigit? c).isSome) then
        canonFin (radixToNat binDigit? 2 rest : ℕ) 0
      else .nan
    else if x = 'o' ∨ x = 'O' then
      if rest ≠ [] ∧ rest.all (fun c => (octDigit? c).isSome) then
        canonFin (radixToNat octDigit? 8 rest : ℕ) 0
      else .nan
    else signedMain cs
  | _ => signedMain cs

/-- Decides `m * 10 ^ e ≥ num / 2 ^ p` over the exact rationals, by
clearing denominators (all positive; the powers are computed in `ℕ` and
cast). -/
def decTimesPow10Ge (m e num : ℤ) (p : ℕ) : Bool :=
  if 0 ≤ e then m * ((10 ^ e.toNat : ℕ) : ℤ) * ((2 ^ p : ℕ) : ℤ) ≥ num
  else m * ((2 ^ p : ℕ) : ℤ) ≥ num * ((10 ^ (-e).toNat : ℕ) : ℤ)

/-- Decides `m * 10 ^ e ≤ num / 2 ^ p` over the exact rationals. -/
def decTimesPow10Le (m e num : ℤ) (p : ℕ) : Bool :=
  if 0 ≤ e then m * ((10 ^ e.toNat : ℕ) : ℤ) * ((2 ^ p : ℕ) : ℤ) ≤ num
  else m * ((2 ^ p : ℕ) : ℤ) ≤ num * ((10 ^ (-e).toNat : ℕ) : ℤ)

/-- Does the exact decimal `m * 10 ^ e` round to the binary64 double of the
small integer `k` under round-to-nearest, ties-to-even?  This holds exactly
on the interval `[k - 2 ^ -pLo, k + 2 ^ -pHi]`, where `2 ^ -pLo` and
`2 ^ -pHi` are half the gap to the neighbouring double below and above `k`;
both boundary ties round towards `k` because the doubles 1, 2, 3, 4 all
have even significands, so the interval is closed. -/
def roundsToDouble (m e : ℤ) (k : ℕ) (pLo pHi : ℕ) : Bool :=
  decTimesPow10Ge m e (((k * 2 ^ pLo : ℕ) : ℤ) - 1) pLo &&
  decTimesPow10Le m e (((k * 2 ^ pHi : ℕ) : ℤ) + 1) pHi

/-- The numeral `2 ^ 1075`, the reciprocal of half the least subnormal
binary64 value, written out so that evaluation never exponentiates with a
four-digit exponent (`twoPow1075_eq` checks the numeral). -/
def twoPow1075 : ℕ := 404804506614621236704990693437834614099113299528284236713802716054860679135990693783920767402874248990374155728633623822779617474771586953734026799881477019843034848553132722728933815484186432682479535356945490137124014966849385397236206711298319112681620113024717539104666829230461005064372655017292012526615415482186989568

theorem twoPow1075_eq : twoPow1075 = 2 ^ 1075 := by norm_num [twoPow1075]

/-- Truthiness of the `version` variable: `null` and `NaN` are falsy, the
infinities are truthy, and a finite value is falsy exactly when it rounds
to the binary64 double ±0, i.e. when its magnitude is at most `2 ^ -1075`
(half the least subnormal; the boundary tie rounds to the even ±0).  For a
non-negative exponent this is just `m = 0`; otherwise the denominators are
cleared: `|m| * 2 ^ 1075 ≤ 10 ^ -e`. -/
def jsNumOptTruthy : Option JsNum → Bool
  | none => false
  | some .nan => false
  | some (.inf _) => true
  | some (.fin m e) =>
    if 0 ≤ e then m ≠ 0
    else !(m.natAbs * twoPow1075 ≤ 10 ^ (-e).toNat)

/-- The key of `VERSIONS` hit by the number `version` under JavaScript
property-key conversion: an own property is named only when the binary64
double equals 1, 2, 3, 4 exactly, i.e. when the exact decimal value rounds
into that double's rounding interval.  The half-gaps: below/above 1 are
`2 ^ -54` / `2 ^ -53`, below/above 2 are `2 ^ -53` / `2 ^ -52`, both sides
of 3 are `2 ^ -52`, and below/above 4 are `2 ^ -52` / `2 ^ -51`. -/
def versionKey : Option JsNum → Option ℕ
  | some (.fin m e) =>
    if roundsToDouble m e 1 54 53 then some 1
    else if roundsToDouble m e 2 53 52 then some 2
    else if roundsToDouble m e 3 52 52 then some 3
    else if roundsToDouble m e 4 52 51 then some 4
    else none
  | _ => none

/-- The `VERSIONS` table of `api/chat.js` (question text per variant id;
ids outside 1–4 have no entry, the empty default is never reached by the
handler because the guard re-draws first). -/
def versionsText : ℕ → String
  | 1 => "Version 1\nA1: Where do you live? / What is your favourite colour or food?\nA2: What do you usually do on the weekend? / Can you describe your family or a friend?\nB1: What was the last book or movie you enjoyed, and why? / Tell me about a typical day at work or school.\nB2: What makes someone a good leader? / Describe a problem you faced and how you solved it.\nC1: Do you agree or disagree: \"Technology is making us less social\"? Why? / How would you compare education in your country to education in Canada?\nC2: What are the long-term effects of globalization? / Explain a controversial issue in your country and your opinion."
  | 2 => "Version 2\nA1: What city or town are you from? / What is your favourite season or holiday?\nA2: What do you like to do after school or work? / Describe a family member or a friend.\nB1: Tell me about a recent trip or vacation you enjoyed. / What is a typical day like for you?\nB2: What qualities make a good teacher or mentor? / Talk about a challenge you have faced and how you dealt with it.\nC1: Do you think social media helps or hurts communication? Why? / Compare the education system in your country with Canada’s.\nC2: What are some effects of climate change worldwide? / Discuss a current event in your country and your thoughts about it."
  | 3 => "Version 3\nA1: Where is your home? / What food or color do you like best?\nA2: What do you do on weekends? / Describe a friend or family member.\nB1: What book or movie did you like recently? Why? / Describe your usual day.\nB2: What makes a person a good leader? / Tell me about a problem you solved.\nC1: Do you agree that technology makes people less social? Why or why not? / How is education different in your country versus Canada?\nC2: What are the impacts of globalization? / Talk about a controversial topic in your country and your view."
  | 4 => "Version 4\nA1: What city do you live in? / What is your favourite color or food?\nA2: What activities do you enjoy on weekends? / Can you describe a family member or friend?\nB1: What was the last movie or book you liked? Why? / Describe a typical day at your work or school.\nB2: What makes a good leader? / Describe a challenge you overcame.\nC1: Do you agree or disagree that technology is making us less social? Why? / How would you compare your country’s education system with Canada’s?\nC2: What are the effects of globalization in the long term? / Explain a controversial issue in your country and your opinion."
  | _ => ""

/-- The `Set-Cookie` value built on fresh assignment (template literal of
line 101 of `api/chat.js`). -/
def mkSetCookie (v : ℕ) : String :=
  "cefr_version=" ++ toString v ++ "; Path=/; Max-Age=3600; HttpOnly=false; SameSite=Lax; Secure"

/-- Cookie parsing and variant resolution (lines 92–102 of `api/chat.js`):
the cookie value, when present and truthy, is coerced with `Number`; the id
is reused when that number is truthy and names an own `VERSIONS` entry,
otherwise a fresh id `rnd+1` is drawn and a cookie header value is built.
`Except.error` propagates the `parseCookies` exception. -/
def resolveVariant (cookieHeader : String) (rnd : Fin 4) : Except Unit (ℕ × Option String) :=
  match parseCookies cookieHeader with
  | .error e => .error e
  | .ok cookies =>
    let version : Option JsNum :=
      match jsLookup cookies "cefr_version" with
      | some v => if v = "" then none else some (jsNumber v)
      | none => none
    if jsNumOptTruthy version && (versionKey version).isSome then
      .ok ((versionKey version).getD 1, none)
    else
      .ok (rnd.val + 1, some (mkSetCookie (rnd.val + 1)))

/-- Own entries of the `cachedReplies` object literal. -/
def cachedRepliesOwn (k : String) : Option String :=
  if k = "hello" then
    some "Hello! I’m your English Assistant. I’ll ask a few friendly questions to understand your English level."
  else if k = "hi" then
    some "Hi there! Ready to test your English skills? Let's get started."
  else if k = "help" then
    some "I’m here to help you assess your English level. Just type your message and I'll guide you."
  else none

/-- Property names a plain object literal inherits from `Object.prototype`;
a bracket read with one of these keys yields the inherited (truthy)
function or object value. -/
def objectProtoMember (k : String) : Bool :=
  k ∈ (["constructor", "hasOwnProperty", "isPrototypeOf", "propertyIsEnumerable",
        "toLocaleString", "toString", "valueOf", "__defineGetter__", "__defineSetter__",
        "__lookupGetter__", "__lookupSetter__", "__proto__"] : List String)

/-- The read `cachedReplies[userMessage]`: own entry first, otherwise the
prototype chain. -/
def cacheLookup (k : String) : Option JVal :=
  match cachedRepliesOwn k with
  | some s => some (.vstr s)
  | none => if objectProtoMember k then some (.vobj k) else none

/-- Template text of `buildSystemPrompt` before the interpolation hole. -/
def promptHead : String :=
  "\nYou are an English placement chatbot for LETSknow. Goal: assess the user's English level (CEFR A1–C2) via a friendly, tiered conversation.\nRules:\n- Use ONLY the test questions from the chosen version for the whole session.\n- Do NOT display CEFR labels while asking; ask conversationally.\n- Include a short writing prompt (4–6 sentences) and an optional speaking prompt before finalizing the level.\n- Be very generous and supportive: do not penalize minor or occasional mistakes, especially from fluent or native speakers.\n- When uncertain between levels, always assign the higher level.\n- If user asks unrelated questions (visas, immigration, IELTS, TOEFL, study abroad, general information), use the fallback (see below) and invite them to book a LETSknow advisor.\n\nFallback:\n\"I'm here to help you discover your English level using LETSknow's AI-powered CEFR assessment. If you have other questions like immigration, visas, standardized tests, or general information, I won’t be able to help with those. Please book a meeting with a LETSknow advisor for personalised support. We're happy to help!\"\n\nSelected test (only use these questions):\n"

/-- Template text of `buildSystemPrompt` after the interpolation hole. -/
def promptTail : String :=
  "\n\nWhen estimating the level later, give one label (A1–C2) and a 1–2 sentence friendly rationale, then invite them to book a free consultation.\n"

/-- The helper `buildSystemPrompt` of `api/chat.js`: the fixed template with
the selected version text interpolated, trimmed. -/
def buildSystemPrompt (versionText : String) : String :=
  String.mk (jsTrim (promptHead ++ versionText ++ promptTail).toList)

/-- One conversation turn `{role, content}` as received or sent by the
handler; fields are raw JavaScript values because the turn shape of
client-supplied history is never validated. -/
structure Turn where
  role : JVal
  content : JVal
  deriving DecidableEq, Repr

/-- The request body `{history?, message?}`; `history = none` covers both an
absent field and any non-array value (the code only checks
`Array.isArray`), `message` is an arbitrary JavaScript value. -/
structure ReqBody where
  history : Option (List Turn)
  message : JVal
  deriving DecidableEq, Repr

/-- The parts of the incoming HTTP request the handler reads. -/
structure Request where
  reqMethod : String
  cookieHeader : Option String
  body : Option ReqBody
  deriving DecidableEq, Repr

/-- The `message` object of one upstream choice. -/
structure UpMsg where
  content : JVal
  deriving DecidableEq, Repr

/-- One element of the upstream `choices` array. -/
structure UpChoice where
  message : Option UpMsg
  deriving DecidableEq, Repr

/-- The decoded upstream JSON body. -/
structure UpData where
  choices : Option (List UpChoice)
  deriving DecidableEq, Repr

/-- Behaviour of the single upstream completion call, supplied as a
parameter (the test-double boundary of the design): transport-level
success flag, raw text body, and the JSON decoding of the body (`none`
models `res.json()` throwing). -/
structure UpstreamResponse where
  ok : Bool
  textBody : String
  jsonBody : Option UpData
  deriving DecidableEq, Repr

/-- JSON response bodies the handler can emit. -/
inductive RespBody where
  | reply (v : JVal)
  | errMsg (msg : String)
  | errDetails (msg details : String)
  deriving DecidableEq, Repr

/-- Observable outcome of one handler invocation: status, JSON body, the
`Set-Cookie` and `Allow` headers, and the turn list sent upstream (`none`
when no upstream call was made). -/
structure HandlerResult where
  status : ℕ
  body : RespBody
  setCookie : Option String
  allow : Option String
  upstreamMessages : Option (List Turn)
  deriving DecidableEq, Repr

/-- The `history` field of the destructuring `const {history, message} =
req.body ?? {}`. -/
def bodyHistory : Option ReqBody → Option (List Turn)
  | some b => b.history
  | none => none

/-- The `message` field of the destructuring `const {history, message} =
req.body ?? {}`. -/
def bodyMessage : Option ReqBody → JVal
  | some b => b.message
  | none => .vundefined

/-- The expression computing `userMessage`'s raw operand (lines 111–113):
the `content` of the last history element when `history` is a non-empty
array, otherwise `message || ""`. -/
def latestRaw (history : Option (List Turn)) (message : JVal) : JVal :=
  match history with
  | some (t :: ts) => ((t :: ts).getLast (by simp)).content
  | _ => if jsTruthy message then message else .vstr ""

/-- Applying `.toLowerCase().trim()` to a raw value; every non-string value
makes the method access throw (`Except.error`). -/
def lowerTrimJVal : JVal → Except Unit String
  | .vstr s => .ok (jsLowerTrim s)
  | _ => .error ()

/-- Extraction `data.choices?.[0]?.message?.content ?? fallback` of line
155: the fallback string replaces only a missing chain or a
`null`/`undefined` content. -/
def extractReply (d : UpData) : JVal :=
  match d.choices with
  | some (c :: _) =>
    match c.message with
    | some m =>
      match m.content with
      | .vundefined => .vstr "I couldn't generate a response."
      | .vnull => .vstr "I couldn't generate a response."
      | v => v
    | none => .vstr "I couldn't generate a response."
  | _ => .vstr "I couldn't generate a response."

/-- The upstream call and response shaping (lines 133–159): non-success
becomes a 502 carrying the raw upstream text, a JSON decoding failure
escapes to the top-level catch, success yields 200 with the extracted
reply; the pending cookie header is attached on the 502 and 200 paths. -/
def callUpstream (msgs : List Turn) (setCk : Option String) (up : UpstreamResponse) :
    HandlerResult :=
  if up.ok then
    match up.jsonBody with
    | some d => ⟨200, .reply (extractReply d), setCk, none, some msgs⟩
    | none => ⟨500, .errMsg "Server error", none, none, some msgs⟩
  else ⟨502, .errDetails "AI service error" up.textBody, setCk, none, some msgs⟩

/-- Message assembly after a cache miss (lines 120–130): the system turn is
followed by the whole history when it is a non-empty array, else by a
single user turn when `message` is truthy, else the request is rejected
with 400. -/
def afterCache (version : ℕ) (setCk : Option String) (history : Option (List Turn))
    (message : JVal) (up : UpstreamResponse) : HandlerResult :=
  let sysTurn : Turn := ⟨.vstr "system", .vstr (buildSystemPrompt (versionsText version))⟩
  match history with
  | some (t :: ts) => callUpstream (sysTurn :: t :: ts) setCk up
  | _ =>
    if jsTruthy message then callUpstream [sysTurn, ⟨.vstr "user", message⟩] setCk up
    else ⟨400, .errMsg "No message or history provided", none, none, none⟩

/-- Body of the `try` block after variant resolution: compute the
normalized latest utterance (a non-string `content`/`message` throws,
surfacing as 500), short-circuit on a truthy cache hit (attaching the
pending cookie), otherwise assemble messages and call upstream. -/
def afterVariant (version : ℕ) (setCk : Option String) (body : Option ReqBody)
    (up : UpstreamResponse) : HandlerResult :=
  match lowerTrimJVal (latestRaw (bodyHistory body) (bodyMessage body)) with
  | .error _ => ⟨500, .errMsg "Server error", none, none, none⟩
  | .ok userMessage =>
    match cacheLookup userMessage with
    | some rv =>
      if jsTruthy rv then ⟨200, .reply rv, setCk, none, none⟩
      else afterCache version setCk (bodyHistory body) (bodyMessage body) up
    | none => afterCache version setCk (bodyHistory body) (bodyMessage body) up

/-- The exported request handler of `api/chat.js`.  `rnd` is the value of
`Math.floor(Math.random()*4)` and `up` the behaviour of the upstream call,
both supplied as parameters; exceptions inside the `try` block produce the
generic 500 response. -/
def handler (req : Request) (rnd : Fin 4) (up : UpstreamResponse) : HandlerResult :=
  if req.reqMethod = "POST" then
    match resolveVariant (req.cookieHeader.getD "") rnd with
    | .ok (version, setCk) => afterVariant version setCk req.body up
    | .error _ => ⟨500, .errMsg "Server error", none, none, none⟩
  else ⟨405, .errMsg "Method not allowed", none, some "POST", none⟩


theorem utf8Decode_encodeChar (c : Char) (bs : List ℕ) :
    utf8Decode (utf8EncodeChar c ++ bs) = (utf8Decode bs).map (c :: ·) := by
  have hv : c.toNat < 0xd800 ∨ (0xdfff < c.toNat ∧ c.toNat < 0x110000) := c.valid
  have hofn : Char.ofNat c.toNat = c := Char.ofNat_toNat c
  by_cases h1 : c.toNat < 0x80
  · rw [utf8EncodeChar, if_pos h1]
    rcases bs with _ | ⟨b2, _ | ⟨b3, _ | ⟨b4, rest⟩⟩⟩ <;>
      simp [utf8Decode, utf8Lead1, h1, hofn]
  · by_cases h2 : c.toNat < 0x800
    · rw [utf8EncodeChar, if_neg h1, if_pos h2]
      have hchar : utf8Char2 (0xc0 + c.toNat / 64) (0x80 + c.toNat % 64) = c.toNat := by
        simp only [utf8Char2]; omega
      have hok : utf8Ok2 (0xc0 + c.toNat / 64) (0x80 + c.toNat % 64) = true := by
        simp only [utf8Ok2, utf8Cont, Bool.and_eq_true, decide_eq_true_eq]; omega
      have hl : utf8Lead1 (0xc0 + c.toNat / 64) = false := by
        simp only [utf8Lead1, decide_eq_true_eq, decide_eq_false_iff_not]; omega
      rcases bs with _ | ⟨b3, _ | ⟨b4, rest⟩⟩ <;>
        simp [utf8Decode, hl, hok, hchar, hofn]
    · by_cases h3 : c.toNat < 0x10000
      · rw [utf8EncodeChar, if_neg h1, if_neg h2, if_pos h3]
        have hchar : utf8Char3 (0xe0 + c.toNat / 4096) (0x80 + c.toNat / 64 % 64)
            (0x80 + c.toNat % 64) = c.toNat := by
          simp only [utf8Char3]; omega
        have hok : utf8Ok3 (0xe0 + c.toNat / 4096) (0x80 + c.toNat / 64 % 64)
            (0x80 + c.toNat % 64) = true := by
          simp only [utf8Ok3, utf8Cont, utf8Char3, Bool.and_eq_true, decide_eq_true_eq,
            Bool.not_eq_true', decide_eq_false_iff_not]
          omega
        have hok2 : utf8Ok2 (0xe0 + c.toNat / 4096) (0x80 + c.toNat / 64 % 64) = false := by
          simp only [utf8Ok2, utf8Cont, Bool.and_eq_true, decide_eq_true_eq,
            Bool.and_eq_false_iff, decide_eq_false_iff_not]
          omega
        have hl : utf8Lead1 (0xe0 + c.toNat / 4096) = false := by
          simp only [utf8Lead1, decide_eq_false_iff_not]; omega
        rcases bs with _ | ⟨b4, rest⟩ <;>
          simp [utf8Decode, hl, hok2, hok, hchar, hofn]
      · rw [utf8EncodeChar, if_neg h1, if_neg h2, if_neg h3]
        have hchar : utf8Char4 (0xf0 + c.toNat / 0x40000) (0x80 + c.toNat / 4096 % 64)
            (0x80 + c.toNat / 64 % 64) (0x80 + c.toNat % 64) = c.toNat := by
          simp only [utf8Char4]; omega
        have hok : utf8Ok4 (0xf0 + c.toNat / 0x40000) (0x80 + c.toNat / 4096 % 64)
            (0x80 + c.toNat / 64 % 64) (0x80 + c.toNat % 64) = true := by
          simp only [utf8Ok4, utf8Cont, utf8Char4, Bool.and_eq_true, decide_eq_true_eq]
          omega
        have hok3 : utf8Ok3 (0xf0 + c.toNat / 0x40000) (0x80 + c.toNat / 4096 % 64)
            (0x80 + c.toNat / 64 % 64) = false := by
          simp only [utf8Ok3, utf8Cont, utf8Char3, Bool.and_eq_true, decide_eq_true_eq,
            Bool.not_eq_true', decide_eq_false_iff_not, Bool.and_eq_false_iff]
          omega
        have hok2 : utf8Ok2 (0xf0 + c.toNat / 0x40000) (0x80 + c.toNat / 4096 % 64) = false := by
          simp only [utf8Ok2, utf8Cont, Bool.and_eq_true, decide_eq_true_eq,
            Bool.and_eq_false_iff, decide_eq_false_iff_not]
          omega
        have hl : utf8Lead1 (0xf0 + c.toNat / 0x40000) = false := by
          simp only [utf8Lead1, decide_eq_false_iff_not]; omega
        simp [utf8Decode, hl, hok2, hok3, hok, hchar, hofn]

theorem utf8Decode_encode (cs : List Char) : utf8Decode (utf8Encode cs) = some cs := by
  induction cs with
  | nil => rfl
  | cons c cs ih =>
    rw [utf8Encode, List.flatMap_cons, ← utf8Encode, utf8Decode_encodeChar, ih]
    rfl


theorem percentDecodeBytes_no_percent (cs : List Char) (h : ∀ c ∈ cs, c ≠ '%') :
    percentDecodeBytes cs = some (utf8Encode cs) := by
  induction cs with
  | nil => rfl
  | cons c rest ih =>
    have hc : c ≠ '%' := h c (by simp)
    conv_lhs => rw [percentDecodeBytes.eq_def]
    simp only [if_neg hc, ih (fun x hx => h x (by simp [hx]))]
    rfl

theorem decodeURIComponent_no_percent (s : String) (h : ∀ c ∈ s.toList, c ≠ '%') :
    decodeURIComponent s = some s := by
  rw [decodeURIComponent, percentDecodeBytes_no_percent _ h]
  show (utf8Decode (utf8Encode s.toList)).map String.mk = some s
  rw [utf8Decode_encode]
  rfl

theorem splitChar_ne_nil (sep : Char) (cs : List Char) : splitChar sep cs ≠ [] := by
  induction cs with
  | nil => simp [splitChar]
  | cons c rest ih =>
    rw [splitChar]
    by_cases hc : c = sep
    · simp [hc]
    · rw [if_neg hc]
      rcases h : splitChar sep rest with _ | ⟨p, ps⟩ <;> simp

theorem mem_of_mem_splitChar {sep : Char} {cs p : List Char} {x : Char}
    (hp : p ∈ splitChar sep cs) (hx : x ∈ p) : x ∈ cs := by
  induction cs generalizing p with
  | nil =>
    rw [splitChar] at hp
    simp at hp
    subst hp
    simp at hx
  | cons c rest ih =>
    rw [splitChar] at hp
    by_cases hc : c = sep
    · rw [if_pos hc] at hp
      rcases List.mem_cons.mp hp with h | h
      · subst h; simp at hx
      · exact List.mem_cons_of_mem _ (ih h hx)
    · rw [if_neg hc] at hp
      rcases hsp : splitChar sep rest with _ | ⟨q, qs⟩
      · rw [hsp] at hp
        simp at hp
        subst hp
        simp at hx
        subst hx
        simp
      · rw [hsp] at hp
        rcases List.mem_cons.mp hp with h | h
        · subst h
          rcases List.mem_cons.mp hx with h2 | h2
          · subst h2; simp
          · exact List.mem_cons_of_mem _ (ih (p := q) (by rw [hsp]; simp) h2)
        · exact List.mem_cons_of_mem _
            (ih (by rw [hsp]; exact List.mem_cons_of_mem _ h) hx)

theorem mem_of_mem_jsTrim {cs : List Char} {x : Char} (h : x ∈ jsTrim cs) : x ∈ cs := by
  unfold jsTrim at h
  rw [List.mem_reverse] at h
  have h2 := (List.dropWhile_sublist (l := (cs.dropWhile jsWhitespace).reverse)
    (p := jsWhitespace)).mem h
  rw [List.mem_reverse] at h2
  exact (List.dropWhile_sublist (l := cs) (p := jsWhitespace)).mem h2

theorem mem_of_mem_joinSep {sep : Char} {ps : List (List Char)} {x : Char}
    (h : x ∈ joinSep sep ps) : x = sep ∨ ∃ p ∈ ps, x ∈ p := by
  induction ps with
  | nil => simp [joinSep] at h
  | cons p ps ih =>
    rcases ps with _ | ⟨q, rest⟩
    · rw [joinSep] at h
      exact Or.inr ⟨p, by simp, h⟩
    · rw [joinSep] at h
      rcases List.mem_append.mp h with h1 | h1
      · exact Or.inr ⟨p, by simp, h1⟩
      · rcases List.mem_cons.mp h1 with h2 | h2
        · exact Or.inl h2
        · rcases ih h2 with h3 | ⟨r, hr, hxr⟩
          · exact Or.inl h3
          · exact Or.inr ⟨r, List.mem_cons_of_mem _ hr, hxr⟩

theorem cookieStep_ok (acc : List (String × String)) (pair : List Char)
    (hp : ∀ c ∈ pair, c ≠ '%') : ∃ m, cookieStep acc pair = Except.ok m := by
  unfold cookieStep
  by_cases hnil : pair = []
  · exact ⟨acc, by rw [if_pos hnil]⟩
  · rw [if_neg hnil]
    have hdec : decodeURIComponent (String.mk (joinSep '=' (splitChar '=' pair).tail)) =
        some (String.mk (joinSep '=' (splitChar '=' pair).tail)) := by
      apply decodeURIComponent_no_percent
      intro c hc
      rcases mem_of_mem_joinSep hc with h1 | ⟨q, hq, hxq⟩
      · subst h1; decide
      · exact hp c (mem_of_mem_splitChar (List.mem_of_mem_tail hq) hxq)
    rw [hdec]
    exact ⟨_, rfl⟩

theorem cookieFold_ok (pairs : List (List Char)) (acc : List (String × String))
    (hseg : ∀ p ∈ pairs, ∀ c ∈ p, c ≠ '%') :
    ∃ m, List.foldlM cookieStep acc pairs = Except.ok m := by
  induction pairs generalizing acc with
  | nil => exact ⟨acc, rfl⟩
  | cons p ps ih =>
    obtain ⟨m1, hm1⟩ := cookieStep_ok acc p (hseg p (by simp))
    rw [List.foldlM_cons, hm1]
    have hbind : (Except.ok m1 : Except Unit (List (String × String))) >>=
        (fun b => List.foldlM cookieStep b ps) = List.foldlM cookieStep m1 ps := rfl
    rw [hbind]
    exact ih m1 (fun q hq c hc => hseg q (List.mem_cons_of_mem _ hq) c hc)

theorem parseCookies_ok_of_no_percent (h : String) (hp : ∀ c ∈ h.toList, c ≠ '%') :
    ∃ m, parseCookies h = Except.ok m := by
  unfold parseCookies
  apply cookieFold_ok
  intro p hmem c hc
  rcases List.mem_map.mp hmem with ⟨q, hq, rfl⟩
  exact hp c (mem_of_mem_splitChar hq (mem_of_mem_jsTrim hc))


theorem dropWhile_append_of_ne_nil {α : Type} {p : α → Bool} {l1 l2 : List α}
    (h : l1.dropWhile p ≠ []) : (l1 ++ l2).dropWhile p = l1.dropWhile p ++ l2 := by
  rw [List.dropWhile_append, if_neg]
  simp [List.isEmpty_iff, h]

theorem jsTrim_embed (a t c : List Char)
    (ha : a.dropWhile jsWhitespace ≠ [])
    (hc : c.reverse.dropWhile jsWhitespace ≠ []) :
    jsTrim (a ++ t ++ c) =
      a.dropWhile jsWhitespace ++ t ++ (c.reverse.dropWhile jsWhitespace).reverse := by
  unfold jsTrim
  rw [List.append_assoc, dropWhile_append_of_ne_nil ha, List.reverse_append,
    List.reverse_append, List.append_assoc, dropWhile_append_of_ne_nil hc,
    List.reverse_append, List.reverse_append, List.reverse_reverse, List.reverse_reverse,
    List.append_assoc]

theorem buildSystemPrompt_embed (t : String) :
    ∃ p q : String, buildSystemPrompt t = p ++ t ++ q := by
  have ha : promptHead.toList.dropWhile jsWhitespace ≠ [] := by decide
  have hc : promptTail.toList.reverse.dropWhile jsWhitespace ≠ [] := by decide
  refine ⟨String.mk (promptHead.toList.dropWhile jsWhitespace),
    String.mk ((promptTail.toList.reverse.dropWhile jsWhitespace).reverse), ?_⟩
  show String.mk (jsTrim ((promptHead ++ t ++ promptTail).toList)) = _
  have h1 : (promptHead ++ t ++ promptTail).toList
      = promptHead.toList ++ t.toList ++ promptTail.toList := rfl
  rw [h1, jsTrim_embed _ _ _ ha hc]
  rfl


theorem callUpstream_upstreamMessages (m : List Turn) (sc : Option String)
    (up : UpstreamResponse) : (callUpstream m sc up).upstreamMessages = some m := by
  unfold callUpstream
  split
  · split <;> rfl
  · rfl

theorem callUpstream_setCookie (m : List Turn) (sc : Option String) (up : UpstreamResponse) :
    (callUpstream m sc up).setCookie = sc ∨ (callUpstream m sc up).setCookie = none := by
  unfold callUpstream
  split
  · split
    · exact Or.inl rfl
    · exact Or.inr rfl
  · exact Or.inl rfl

theorem afterVariant_cases (v : ℕ) (sc : Option String) (b : Option ReqBody)
    (up : UpstreamResponse) :
    afterVariant v sc b up = ⟨500, .errMsg "Server error", none, none, none⟩ ∨
    (∃ rv, afterVariant v sc b up = ⟨200, .reply rv, sc, none, none⟩) ∨
    afterVariant v sc b up = ⟨400, .errMsg "No message or history provided", none, none, none⟩ ∨
    (∃ rest, afterVariant v sc b up =
      callUpstream (⟨.vstr "system", .vstr (buildSystemPrompt (versionsText v))⟩ :: rest) sc up) := by
  unfold afterVariant afterCache
  rcases b with _ | ⟨hist, msg⟩
  · dsimp only
    split
    · exact Or.inl rfl
    · split
      · split
        · exact Or.inr (Or.inl ⟨_, rfl⟩)
        · split
          · exact Or.inr (Or.inr (Or.inr ⟨_, rfl⟩))
          · exact Or.inr (Or.inr (Or.inl rfl))
      · split
        · exact Or.inr (Or.inr (Or.inr ⟨_, rfl⟩))
        · exact Or.inr (Or.inr (Or.inl rfl))
  · dsimp only
    split
    · exact Or.inl rfl
    · split
      · split
        · exact Or.inr (Or.inl ⟨_, rfl⟩)
        · split
          · exact Or.inr (Or.inr (Or.inr ⟨_, rfl⟩))
          · split
            · exact Or.inr (Or.inr (Or.inr ⟨_, rfl⟩))
            · exact Or.inr (Or.inr (Or.inl rfl))
      · split
        · exact Or.inr (Or.inr (Or.inr ⟨_, rfl⟩))
        · split
          · exact Or.inr (Or.inr (Or.inr ⟨_, rfl⟩))
          · exact Or.inr (Or.inr (Or.inl rfl))


theorem afterVariant_setCookie (v : ℕ) (sc : Option String) (b : Option ReqBody)
    (up : UpstreamResponse) :
    (afterVariant v sc b up).setCookie = sc ∨ (afterVariant v sc b up).setCookie = none := by
  rcases afterVariant_cases v sc b up with h | ⟨rv, h⟩ | h | ⟨rest, h⟩
  · rw [h]; exact Or.inr rfl
  · rw [h]; exact Or.inl rfl
  · rw [h]; exact Or.inr rfl
  · rw [h]; exact callUpstream_setCookie _ _ _

theorem afterVariant_upstream_eq (v : ℕ) (sc : Option String) (b : Option ReqBody)
    (up : UpstreamResponse) (msgs : List Turn)
    (h : (afterVariant v sc b up).upstreamMessages = some msgs) :
    afterVariant v sc b up = callUpstream msgs sc up ∧
    ∃ rest, msgs = ⟨.vstr "system", .vstr (buildSystemPrompt (versionsText v))⟩ :: rest := by
  rcases afterVariant_cases v sc b up with hc | ⟨rv, hc⟩ | hc | ⟨rest, hc⟩
  · rw [hc] at h; simp at h
  · rw [hc] at h; simp at h
  · rw [hc] at h; simp at h
  · rw [hc] at h
    rw [callUpstream_upstreamMessages] at h
    obtain rfl := Option.some_inj.mp h
    exact ⟨hc, rest, rfl⟩

theorem resolveVariant_fresh_of_some (ch : String) (rnd : Fin 4) (ver : ℕ) (s : String)
    (h : resolveVariant ch rnd = .ok (ver, some s)) :
    ver = rnd.val + 1 ∧ s = mkSetCookie (rnd.val + 1) := by
  unfold resolveVariant at h
  rcases hp : parseCookies ch with e | cookies
  · rw [hp] at h; exact absurd h (by simp)
  · rw [hp] at h
    dsimp only at h
    split at h
    · simp at h
    · simp only [Except.ok.injEq, Prod.mk.injEq, Option.some.injEq] at h
      exact ⟨h.1.symm, h.2.symm⟩

theorem handler_setCookie_fresh (req : Request) (rnd : Fin 4) (up : UpstreamResponse)
    (s : String) (h : (handler req rnd up).setCookie = some s) :
    s = mkSetCookie (rnd.val + 1) ∧
    resolveVariant (req.cookieHeader.getD "") rnd = .ok (rnd.val + 1, some s) := by
  unfold handler at h
  split at h
  · rcases hr : resolveVariant (req.cookieHeader.getD "") rnd with e | ⟨ver, sc⟩
    · rw [hr] at h; simp at h
    · rw [hr] at h
      dsimp only at h
      rcases afterVariant_setCookie ver sc req.body up with h2 | h2
      · rw [h2] at h
        subst h
        obtain ⟨hv, hs⟩ := resolveVariant_fresh_of_some _ _ _ _ hr
        subst hv
        exact ⟨hs, rfl⟩
      · rw [h2] at h; simp at h
  · simp at h

theorem handler_upstream_eq (req : Request) (rnd : Fin 4) (up : UpstreamResponse)
    (msgs : List Turn) (h : (handler req rnd up).upstreamMessages = some msgs) :
    ∃ ver sc, resolveVariant (req.cookieHeader.getD "") rnd = .ok (ver, sc) ∧
      handler req rnd up = callUpstream msgs sc up ∧
      ∃ rest, msgs = ⟨.vstr "system", .vstr (buildSystemPrompt (versionsText ver))⟩ :: rest := by
  unfold handler at h ⊢
  split at h
  case isTrue hm =>
    rw [if_pos hm]
    rcases hr : resolveVariant (req.cookieHeader.getD "") rnd with e | ⟨ver, sc⟩
    · rw [hr] at h; simp at h
    · rw [hr] at h
      dsimp only at h
      obtain ⟨heq, rest, hrest⟩ := afterVariant_upstream_eq ver sc req.body up msgs h
      dsimp only
      exact ⟨ver, sc, rfl, heq, rest, hrest⟩
  case isFalse => simp at h


/-- The variant id denoted by one of the four valid cookie value strings. -/
def variantIdOfValue (v : String) : ℕ :=
  if v = "1" then 1 else if v = "2" then 2 else if v = "3" then 3
  else if v = "4" then 4 else 0

theorem resolveVariant_reuse (ch : String) (rnd : Fin 4) (cs : List (String × String))
    (v : String) (hp : parseCookies ch = Except.ok cs)
    (hl : jsLookup cs "cefr_version" = some v) (hv : v ∈ (["1", "2", "3", "4"] : List String)) :
    resolveVariant ch rnd = Except.ok (variantIdOfValue v, none) := by
  unfold resolveVariant
  rw [hp]
  dsimp only
  rw [hl]
  simp only [List.mem_cons, List.not_mem_nil, or_false] at hv
  rcases hv with rfl | rfl | rfl | rfl <;>
    · rw [if_pos (by decide)]
      rfl

theorem resolveVariant_fresh (ch : String) (rnd : Fin 4) (cs : List (String × String))
    (v : String) (hp : parseCookies ch = Except.ok cs)
    (hl : jsLookup cs "cefr_version" = some v)
    (hinv : v = "" ∨ jsNumOptTruthy (some (jsNumber v)) = false ∨
      versionKey (some (jsNumber v)) = none) :
    resolveVariant ch rnd = Except.ok (rnd.val + 1, some (mkSetCookie (rnd.val + 1))) := by
  unfold resolveVariant
  rw [hp]
  dsimp only
  rw [hl]
  dsimp only
  by_cases he : v = ""
  · rw [if_pos he, if_neg (by simp [jsNumOptTruthy])]
  · rw [if_neg he]
    rcases hinv with rfl | h2 | h3
    · exact absurd rfl he
    · rw [if_neg (by simp [h2])]
    · rw [if_neg (by simp [h3])]

theorem resolveVariant_no_cookie (rnd : Fin 4) :
    resolveVariant "" rnd = Except.ok (rnd.val + 1, some (mkSetCookie (rnd.val + 1))) := rfl

/-- C1: a request whose `cefr_version` cookie value is one of the four
valid ids reuses that id: no `Set-Cookie` header is emitted on any path,
and whenever the upstream call is assembled its first turn is the system
prompt, which embeds that variant's question text as a substring. -/
theorem c1_valid_cookie_reused (ch : String) (body : Option ReqBody) (rnd : Fin 4)
    (up : UpstreamResponse) (cs : List (String × String)) (v : String)
    (hp : parseCookies ch = Except.ok cs) (hl : jsLookup cs "cefr_version" = some v)
    (hv : v ∈ (["1", "2", "3", "4"] : List String)) :
    (handler ⟨"POST", some ch, body⟩ rnd up).setCookie = none ∧
    ∀ msgs, (handler ⟨"POST", some ch, body⟩ rnd up).upstreamMessages = some msgs →
      ∃ p q : String, msgs.head? =
        some ⟨.vstr "system", .vstr (p ++ versionsText (variantIdOfValue v) ++ q)⟩ := by
  have hres : resolveVariant ch rnd = Except.ok (variantIdOfValue v, none) :=
    resolveVariant_reuse ch rnd cs v hp hl hv
  constructor
  · show (handler ⟨"POST", some ch, body⟩ rnd up).setCookie = none
    unfold handler
    rw [if_pos rfl]
    rw [show ((some ch : Option String).getD "") = ch from rfl, hres]
    dsimp only
    rcases afterVariant_setCookie (variantIdOfValue v) none body up with h | h <;> exact h
  · intro msgs hup
    obtain ⟨ver, sc, hr, _, rest, hrest⟩ := handler_upstream_eq _ rnd up msgs hup
    rw [show ((⟨"POST", some ch, body⟩ : Request).cookieHeader.getD "") = ch from rfl,
      hres] at hr
    obtain ⟨hver, -⟩ := Prod.mk.injEq .. ▸ Except.ok.inj hr
    obtain ⟨p, q, hpq⟩ := buildSystemPrompt_embed (versionsText (variantIdOfValue v))
    refine ⟨p, q, ?_⟩
    rw [hrest, ← hver]
    simp [hpq]

theorem c1_valid_cookie_reused_witness :
    parseCookies "cefr_version=3" = Except.ok [("cefr_version", "3")] ∧
    jsLookup [("cefr_version", "3")] "cefr_version" = some "3" ∧
    ("3" ∈ (["1", "2", "3", "4"] : List String)) ∧
    (handler ⟨"POST", some "cefr_version=3", some ⟨none, .vstr "Tell me about you"⟩⟩
      ⟨0, by decide⟩ ⟨true, "", some ⟨some [⟨some ⟨.vstr "ok"⟩⟩]⟩⟩).setCookie = none :=
  ⟨rfl, rfl, by decide,
    (c1_valid_cookie_reused "cefr_version=3" (some ⟨none, .vstr "Tell me about you"⟩)
      ⟨0, by decide⟩ ⟨true, "", some ⟨some [⟨some ⟨.vstr "ok"⟩⟩]⟩⟩
      [("cefr_version", "3")] "3" rfl rfl (by decide)).1⟩


/-- A fixed draw of `Math.floor(Math.random()*4)` used by concrete inputs. -/
def rndZero : Fin 4 := ⟨0, by decide⟩

/-- A concrete successful upstream response used by concrete inputs. -/
def upWorking : UpstreamResponse :=
  ⟨true, "", some ⟨some [⟨some ⟨.vstr "Nice to meet you!"⟩⟩]⟩⟩

/-- Binary64 rounding at the key lookup: the decimal literal
`4.000000000000000001` is within half an ULP of 4, so its `Number` value is
exactly the double 4 and names the `VERSIONS` entry 4 (the cookie is then
reused with no `Set-Cookie`), while `4.000000000000001` is a distinct
double and names no entry. -/
theorem versionKey_binary64_rounding :
    versionKey (some (jsNumber "4.000000000000000001")) = some 4 ∧
    versionKey (some (jsNumber "4.000000000000001")) = none ∧
    (handler ⟨"POST", some "cefr_version=4.000000000000000001",
      some ⟨none, .vstr "x"⟩⟩ rndZero upWorking).setCookie = none := by
  refine ⟨by decide, by decide, ?_⟩
  exact rfl

/-- JavaScript `trim` strips Unicode space separators: an utterance ending
in an ideographic space (U+3000) normalizes to a cache trigger, so the
handler takes the cache short-circuit (even when the upstream double would
fail) and never calls upstream. -/
theorem cache_hit_unicode_space :
    jsLowerTrim "HELLO　" = "hello" ∧
    (handler ⟨"POST", none, some ⟨none, .vstr "HELLO　"⟩⟩ rndZero
      ⟨false, "boom", none⟩).status = 200 ∧
    (handler ⟨"POST", none, some ⟨none, .vstr "HELLO　"⟩⟩ rndZero
      ⟨false, "boom", none⟩).upstreamMessages = none := by
  refine ⟨rfl, rfl, rfl⟩

/-- C2 counterexample: the cookie value `"02"` is not one of the four
valid id strings, yet the handler reuses it (JavaScript `Number("02")` is
`2`): no fresh id is assigned and no `Set-Cookie` header is marked. -/
theorem c2_invalid_cookie_counterexample :
    ("02" ∉ (["1", "2", "3", "4"] : List String)) ∧
    (handler ⟨"POST", some "cefr_version=02", some ⟨none, .vstr "x"⟩⟩ rndZero
      upWorking).setCookie = none ∧
    (handler ⟨"POST", some "cefr_version=02", some ⟨none, .vstr "x"⟩⟩ rndZero
      upWorking).status = 200 :=
  ⟨by decide, rfl, rfl⟩

/-- C2 as amended: a present `cefr_version` cookie value leads to a fresh
uniformly drawn id and a marked `Set-Cookie` exactly when it is empty or
does not coerce under JavaScript `Number` (with IEEE-754 binary64
rounding) to a truthy double naming a `VERSIONS` entry; in that case the
handler behaves identically to the same request without any cookie
header. -/
theorem c2_invalid_cookie_fresh (m : String) (ch : String) (body : Option ReqBody)
    (rnd : Fin 4) (up : UpstreamResponse) (cs : List (String × String)) (v : String)
    (hp : parseCookies ch = Except.ok cs) (hl : jsLookup cs "cefr_version" = some v)
    (hinv : v = "" ∨ jsNumOptTruthy (some (jsNumber v)) = false ∨
      versionKey (some (jsNumber v)) = none) :
    handler ⟨m, some ch, body⟩ rnd up = handler ⟨m, none, body⟩ rnd up ∧
    resolveVariant ch rnd = Except.ok (rnd.val + 1, some (mkSetCookie (rnd.val + 1))) := by
  have hres := resolveVariant_fresh ch rnd cs v hp hl hinv
  refine ⟨?_, hres⟩
  unfold handler
  by_cases hm : m = "POST"
  · rw [if_pos hm, if_pos hm]
    rw [show ((some ch : Option String).getD "") = ch from rfl, hres]
    rw [show ((none : Option String).getD "") = "" from rfl, resolveVariant_no_cookie]
  · rw [if_neg hm, if_neg hm]

theorem c2_invalid_cookie_fresh_witness :
    parseCookies "cefr_version=9" = Except.ok [("cefr_version", "9")] ∧
    (handler ⟨"POST", some "cefr_version=9", some ⟨none, .vstr "x"⟩⟩ rndZero upWorking =
      handler ⟨"POST", none, some ⟨none, .vstr "x"⟩⟩ rndZero upWorking) ∧
    resolveVariant "cefr_version=9" rndZero =
      Except.ok (1, some (mkSetCookie 1)) :=
  ⟨rfl,
    (c2_invalid_cookie_fresh "POST" "cefr_version=9" (some ⟨none, .vstr "x"⟩) rndZero
      upWorking [("cefr_version", "9")] "9" rfl rfl
      (by right; right; decide)).1,
    (c2_invalid_cookie_fresh "POST" "cefr_version=9" (some ⟨none, .vstr "x"⟩) rndZero
      upWorking [("cefr_version", "9")] "9" rfl rfl
      (by right; right; decide)).2⟩

/-- C5 counterexample: on a fresh assignment the emitted header value
contains `HttpOnly=false; ` and therefore is not the exact string the
claim gives. -/
theorem c5_cookie_string_counterexample :
    (handler ⟨"POST", none, some ⟨none, .vstr "x"⟩⟩ rndZero upWorking).setCookie =
      some "cefr_version=1; Path=/; Max-Age=3600; HttpOnly=false; SameSite=Lax; Secure" ∧
    "cefr_version=1; Path=/; Max-Age=3600; HttpOnly=false; SameSite=Lax; Secure" ≠
      "cefr_version=1; Path=/; Max-Age=3600; SameSite=Lax; Secure" :=
  ⟨rfl, by decide⟩

/-- C5 as amended: every emitted `Set-Cookie` header is exactly
`cefr_version=<id>; Path=/; Max-Age=3600; HttpOnly=false; SameSite=Lax;
Secure` with `<id>` the freshly drawn id, and a header is emitted only on
requests whose variant resolution took the fresh-assignment branch. -/
theorem c5_cookie_string (req : Request) (rnd : Fin 4) (up : UpstreamResponse) (s : String)
    (h : (handler req rnd up).setCookie = some s) :
    s = mkSetCookie (rnd.val + 1) ∧
    resolveVariant (req.cookieHeader.getD "") rnd = Except.ok (rnd.val + 1, some s) :=
  handler_setCookie_fresh req rnd up s h

theorem c5_cookie_string_witness :
    ("cefr_version=1; Path=/; Max-Age=3600; HttpOnly=false; SameSite=Lax; Secure" =
      mkSetCookie 1) ∧
    resolveVariant "" rndZero = Except.ok (1,
      some "cefr_version=1; Path=/; Max-Age=3600; HttpOnly=false; SameSite=Lax; Secure") :=
  ⟨(c5_cookie_string ⟨"POST", none, some ⟨none, .vstr "x"⟩⟩ rndZero upWorking _ rfl).1.symm ▸
      rfl,
    (c5_cookie_string ⟨"POST", none, some ⟨none, .vstr "x"⟩⟩ rndZero upWorking
      "cefr_version=1; Path=/; Max-Age=3600; HttpOnly=false; SameSite=Lax; Secure" rfl).2⟩


/-- C3 counterexample: parsing does raise on a malformed percent-escape
(the whole request then fails with 500 even though the utterance is a cache
trigger), and a segment without `=` is not skipped but yields an entry with
empty value. -/
theorem c3_parsing_counterexample :
    parseCookies "x=%" = Except.error () ∧
    parseCookies "a" = Except.ok [("a", "")] ∧
    (handler ⟨"POST", some "x=%", some ⟨none, .vstr "hello"⟩⟩ rndZero upWorking).status
      = 500 :=
  ⟨rfl, rfl, rfl⟩

/-- C3 as amended: cookie parsing is total on every header that contains no
`%` character; it raises only when `decodeURIComponent` meets a malformed
percent-escape, and that exception fails the request with 500. -/
theorem c3_parsing_total_no_percent (h : String) (hp : ∀ c ∈ h.toList, c ≠ '%') :
    ∃ m, parseCookies h = Except.ok m :=
  parseCookies_ok_of_no_percent h hp

theorem c3_parsing_total_no_percent_witness :
    (∀ c ∈ ("a=b; c=d; e" : String).toList, c ≠ '%') ∧
    ∃ m, parseCookies "a=b; c=d; e" = Except.ok m :=
  ⟨by decide, c3_parsing_total_no_percent "a=b; c=d; e" (by decide)⟩

/-- C4: the cache lookup is an unguarded property read on a plain object,
so the normalized utterance `"constructor"` (not a trigger phrase) hits the
member inherited from `Object.prototype`, which is truthy: the handler
takes the cache branch, makes no upstream call and replies with the
inherited function value instead of a canned string. -/
theorem c4_cache_prototype_pollution :
    ("constructor" ∉ (["hello", "hi", "help"] : List String)) ∧
    cachedRepliesOwn "constructor" = none ∧
    (handler ⟨"POST", none, some ⟨none, .vstr "Constructor"⟩⟩ rndZero upWorking).status
      = 200 ∧
    (handler ⟨"POST", none, some ⟨none, .vstr "Constructor"⟩⟩ rndZero upWorking).body
      = .reply (.vobj "constructor") ∧
    (handler ⟨"POST", none, some ⟨none, .vstr "Constructor"⟩⟩ rndZero
      upWorking).upstreamMessages = none :=
  ⟨by decide, rfl, rfl, rfl, rfl⟩

/-- C6 counterexample: a POST request with neither history nor message but
with a cookie header whose value holds a malformed percent-escape is
answered with 500, not 400. -/
theorem c6_no_input_counterexample :
    (handler ⟨"POST", some "x=%", none⟩ rndZero upWorking).status = 500 ∧
    (handler ⟨"POST", some "x=%", none⟩ rndZero upWorking).status ≠ 400 :=
  ⟨rfl, by decide⟩

/-- C6 as amended: on every POST request whose cookie header parses without
raising, if the body provides neither a non-empty history array nor a
truthy message, the handler responds 400 with the error body and makes no
upstream call. -/
theorem c6_no_input_rejected (req : Request) (rnd : Fin 4) (up : UpstreamResponse)
    (ver : ℕ) (sc : Option String) (hm : req.reqMethod = "POST")
    (hres : resolveVariant (req.cookieHeader.getD "") rnd = Except.ok (ver, sc))
    (hh : bodyHistory req.body = none ∨ bodyHistory req.body = some [])
    (hmsg : jsTruthy (bodyMessage req.body) = false) :
    handler req rnd up = ⟨400, .errMsg "No message or history provided", none, none, none⟩ := by
  unfold handler
  rw [if_pos hm, hres]
  dsimp only
  unfold afterVariant
  have hlatest : latestRaw (bodyHistory req.body) (bodyMessage req.body) = .vstr "" := by
    unfold latestRaw
    rcases hh with hh | hh <;> rw [hh] <;> simp [hmsg]
  rw [hlatest]
  show (match cacheLookup (jsLowerTrim "") with
    | some rv =>
      if jsTruthy rv then (⟨200, .reply rv, sc, none, none⟩ : HandlerResult)
      else afterCache ver sc (bodyHistory req.body) (bodyMessage req.body) up
    | none => afterCache ver sc (bodyHistory req.body) (bodyMessage req.body) up) = _
  rw [show cacheLookup (jsLowerTrim "") = none from rfl]
  unfold afterCache
  rcases hh with hh | hh <;> rw [hh] <;> simp [hmsg]

theorem c6_no_input_rejected_witness :
    handler ⟨"POST", none, none⟩ rndZero upWorking =
      ⟨400, .errMsg "No message or history provided", none, none, none⟩ :=
  c6_no_input_rejected ⟨"POST", none, none⟩ rndZero upWorking 1
    (some (mkSetCookie 1)) rfl rfl (Or.inl rfl) rfl

/-- C10: a POST request whose non-empty history ends in a turn without a
string `content` is answered with the generic 500 body (the turn shape is
never validated; the `toLowerCase` call throws and is caught at the top
level), not with 400. -/
theorem c10_unvalidated_history_turn :
    (handler ⟨"POST", none, some ⟨some [⟨.vstr "user", .vundefined⟩], .vundefined⟩⟩ rndZero
      upWorking) = ⟨500, .errMsg "Server error", none, none, none⟩ ∧
    (handler ⟨"POST", none, some ⟨some [⟨.vstr "user", .vundefined⟩], .vundefined⟩⟩ rndZero
      upWorking).status ≠ 400 :=
  ⟨rfl, by decide⟩


/-- C8: whenever the upstream call was made and returned non-success, the
response is 502 with the fixed error message and the raw upstream text as
`details`, and the pending cookie header from variant resolution is
attached. -/
theorem c8_upstream_error (req : Request) (rnd : Fin 4) (up : UpstreamResponse)
    (msgs : List Turn) (ver : ℕ) (sc : Option String) (hok : up.ok = false)
    (hres : resolveVariant (req.cookieHeader.getD "") rnd = Except.ok (ver, sc))
    (hup : (handler req rnd up).upstreamMessages = some msgs) :
    handler req rnd up =
      ⟨502, .errDetails "AI service error" up.textBody, sc, none, some msgs⟩ := by
  obtain ⟨ver2, sc2, hr2, heq, -⟩ := handler_upstream_eq req rnd up msgs hup
  rw [hres] at hr2
  obtain ⟨-, hsc⟩ := Prod.mk.injEq .. ▸ Except.ok.inj hr2
  rw [heq, ← hsc]
  unfold callUpstream
  rw [if_neg (by simp [hok])]

theorem c8_upstream_error_witness :
    handler ⟨"POST", none, some ⟨none, .vstr "x"⟩⟩ rndZero ⟨false, "boom", none⟩ =
      ⟨502, .errDetails "AI service error" "boom", some (mkSetCookie 1), none,
        some [⟨.vstr "system", .vstr (buildSystemPrompt (versionsText 1))⟩,
              ⟨.vstr "user", .vstr "x"⟩]⟩ :=
  c8_upstream_error ⟨"POST", none, some ⟨none, .vstr "x"⟩⟩ rndZero ⟨false, "boom", none⟩
    [⟨.vstr "system", .vstr (buildSystemPrompt (versionsText 1))⟩, ⟨.vstr "user", .vstr "x"⟩]
    1 (some (mkSetCookie 1)) rfl rfl rfl

/-- Does a decoded upstream body carry no completion text at
`choices[0].message.content`? -/
def noCompletionText (d : UpData) : Prop :=
  match d.choices with
  | some (c :: _) =>
    match c.message with
    | some msg => msg.content = JVal.vundefined ∨ msg.content = JVal.vnull
    | none => True
  | _ => True

theorem extractReply_fallback (d : UpData) (h : noCompletionText d) :
    extractReply d = .vstr "I couldn't generate a response." := by
  unfold noCompletionText at h
  unfold extractReply
  rcases hd : d.choices with _ | ⟨_ | ⟨c, rest⟩⟩
  · rfl
  · rfl
  · rw [hd] at h
    dsimp only at h ⊢
    rcases hm : c.message with _ | m
    · rfl
    · rw [hm] at h
      dsimp only at h ⊢
      rcases h with h | h <;> rw [h]

/-- C9: when the upstream call was made, succeeded at the transport level
and decoded to a body with no completion text, the handler responds 200
with the fixed fallback reply. -/
theorem c9_no_completion_fallback (req : Request) (rnd : Fin 4) (up : UpstreamResponse)
    (msgs : List Turn) (d : UpData) (hok : up.ok = true) (hjson : up.jsonBody = some d)
    (hnc : noCompletionText d)
    (hup : (handler req rnd up).upstreamMessages = some msgs) :
    ∃ sc, handler req rnd up =
      ⟨200, .reply (.vstr "I couldn't generate a response."), sc, none, some msgs⟩ := by
  obtain ⟨ver, sc, hr, heq, -⟩ := handler_upstream_eq req rnd up msgs hup
  refine ⟨sc, ?_⟩
  rw [heq]
  unfold callUpstream
  rw [if_pos hok, hjson]
  dsimp only
  rw [extractReply_fallback d hnc]

theorem c9_no_completion_fallback_witness :
    ∃ sc, handler ⟨"POST", none, some ⟨none, .vstr "x"⟩⟩ rndZero ⟨true, "", some ⟨none⟩⟩ =
      ⟨200, .reply (.vstr "I couldn't generate a response."), sc, none,
        some [⟨.vstr "system", .vstr (buildSystemPrompt (versionsText 1))⟩,
              ⟨.vstr "user", .vstr "x"⟩]⟩ :=
  c9_no_completion_fallback ⟨"POST", none, some ⟨none, .vstr "x"⟩⟩ rndZero
    ⟨true, "", some ⟨none⟩⟩
    [⟨.vstr "system", .vstr (buildSystemPrompt (versionsText 1))⟩, ⟨.vstr "user", .vstr "x"⟩]
    ⟨none⟩ rfl rfl trivial rfl


/-- C7: the latest utterance comes from the last history element whenever a
non-empty history is supplied (`message` is ignored), and the upstream turn
sequence is the system turn followed by the entire history; with no usable
history and a truthy message it is the system turn followed by one user
turn. -/
theorem c7_turn_assembly (ch : Option String) (b : ReqBody) (rnd : Fin 4)
    (up : UpstreamResponse) (ver : ℕ) (sc : Option String)
    (hres : resolveVariant (ch.getD "") rnd = Except.ok (ver, sc)) :
    (∀ l t, b.history = some l → l.getLast? = some t →
      latestRaw b.history b.message = t.content) ∧
    (∀ l t s, b.history = some l → l.getLast? = some t → t.content = .vstr s →
      cacheLookup (jsLowerTrim s) = none →
      (handler ⟨"POST", ch, some b⟩ rnd up).upstreamMessages =
        some (⟨.vstr "system", .vstr (buildSystemPrompt (versionsText ver))⟩ :: l)) ∧
    (∀ s, (b.history = none ∨ b.history = some []) → b.message = .vstr s → s ≠ "" →
      cacheLookup (jsLowerTrim s) = none →
      (handler ⟨"POST", ch, some b⟩ rnd up).upstreamMessages =
        some [⟨.vstr "system", .vstr (buildSystemPrompt (versionsText ver))⟩,
              ⟨.vstr "user", .vstr s⟩]) := by
  refine ⟨?_, ?_, ?_⟩
  · intro l t hl hlast
    rcases l with _ | ⟨a, as⟩
    · simp at hlast
    · unfold latestRaw
      rw [hl]
      rw [List.getLast?_eq_getLast (a :: as) (by simp)] at hlast
      obtain rfl := Option.some_inj.mp hlast
      rfl
  · intro l t s hl hlast hcontent hcache
    rcases l with _ | ⟨a, as⟩
    · simp at hlast
    · have hlat : latestRaw b.history b.message = .vstr s := by
        unfold latestRaw
        rw [hl]
        rw [List.getLast?_eq_getLast (a :: as) (by simp)] at hlast
        obtain rfl := Option.some_inj.mp hlast
        exact hcontent
      unfold handler
      rw [if_pos rfl]
      rw [show ((⟨"POST", ch, some b⟩ : Request).cookieHeader.getD "") = ch.getD "" from rfl,
        hres]
      dsimp only
      unfold afterVariant
      simp only [bodyHistory, bodyMessage]
      rw [hlat]
      dsimp only [lowerTrimJVal]
      rw [hcache]
      unfold afterCache
      rw [hl]
      exact callUpstream_upstreamMessages _ _ _
  · intro s hl hmsg hs hcache
    have hlat : latestRaw b.history b.message = .vstr s := by
      unfold latestRaw
      rcases hl with hl | hl <;>
        rw [hl] <;> rw [hmsg] <;> simp [jsTruthy, hs]
    unfold handler
    rw [if_pos rfl]
    rw [show ((⟨"POST", ch, some b⟩ : Request).cookieHeader.getD "") = ch.getD "" from rfl,
      hres]
    dsimp only
    unfold afterVariant
    simp only [bodyHistory, bodyMessage]
    rw [hlat]
    dsimp only [lowerTrimJVal]
    rw [hcache]
    unfold afterCache
    rcases hl with hl | hl <;>
      · rw [hl, hmsg]
        dsimp only
        rw [if_pos (by simp [jsTruthy, hs])]
        exact callUpstream_upstreamMessages _ _ _

theorem c7_turn_assembly_witness :
    (handler ⟨"POST", none, some ⟨some [⟨.vstr "user", .vstr "Tell me"⟩], .vstr "ignored"⟩⟩
      rndZero upWorking).upstreamMessages =
      some (⟨.vstr "system", .vstr (buildSystemPrompt (versionsText 1))⟩ ::
        [⟨.vstr "user", .vstr "Tell me"⟩]) ∧
    (handler ⟨"POST", none, some ⟨none, .vstr "Tell me"⟩⟩ rndZero
      upWorking).upstreamMessages =
      some [⟨.vstr "system", .vstr (buildSystemPrompt (versionsText 1))⟩,
            ⟨.vstr "user", .vstr "Tell me"⟩] :=
  ⟨(c7_turn_assembly none ⟨some [⟨.vstr "user", .vstr "Tell me"⟩], .vstr "ignored"⟩ rndZero
      upWorking 1 (some (mkSetCookie 1)) rfl).2.1 [⟨.vstr "user", .vstr "Tell me"⟩]
      ⟨.vstr "user", .vstr "Tell me"⟩ "Tell me" rfl rfl rfl (by decide),
    (c7_turn_assembly none ⟨none, .vstr "Tell me"⟩ rndZero upWorking 1
      (some (mkSetCookie 1)) rfl).2.2 "Tell me" (Or.inl rfl) rfl (by decide) (by decide)⟩

end Chat
